import Mathlib

/-!
Verification development for the salvium-pool repository.

Shallow embedding of:
* `pool-data-collector.sh` (the node telemetry aggregator): per-cycle node
  statistics collection, upstream/standalone reduction, Redis time-series
  writes (`store_data`), snapshot publication, and the CLI dispatch in `main`.
* `src/shared_template.h` (the cross-process block-template cache): the
  `shared_template_t` record and the `shared_template_update` operation.

A cycle's node responses are modelled as a function
`fetch : String → Option NodeStats`: `some` is a successful `curl` of
`GET /stats` (non-empty, non-"null" body) with the jq `// 0` defaulting
already applied, `none` is an unreachable node.  Bash integer arithmetic
(`$((...))`, `-gt`) is modelled on `Int`; `bc` with `scale=2` is modelled as
truncating division to hundredths.
-/

namespace SalviumPool

/-- Membership of `needle` as a contiguous substring of `hay`, i.e. the bash
glob match `[[ "$hay" == *"$needle"* ]]` used to detect the upstream node. -/
def containsSub (needle : List Char) : List Char → Bool
  | [] => needle.isEmpty
  | c :: t => needle.isPrefixOf (c :: t) || containsSub needle t

/-- The `POOL_NODES` array from pool-data-collector.sh. -/
def POOL_NODES : List String := ["core.supportsal.com:4243", "node1.supportsal.com:4243"]

/-- The retention window `TTL=259200` (3 days in seconds) from pool-data-collector.sh. -/
def TTL : Int := 259200

/-- The expiry passed to `SET "pool:latest_stats" ... EX 300`. -/
def SNAPSHOT_EXPIRY : Int := 300

/-- Modelled from the spec: the timer that launches a collection cycle is not
in the repository (the script is run externally); section 4.5 of the spec
presumes a 60-120 second aggregation cycle, so 120 is the presumed upper
bound of the cycle interval. -/
def CYCLE_INTERVAL_PRESUMED_MAX : Int := 120

/-- The upstream test `[[ "$node" == *"core.supportsal.com"* ]]`. -/
def isUpstream (node : String) : Bool :=
  containsSub "core.supportsal.com".data node.data

/-- One node's parsed `/stats` payload: the nine jq-extracted fields, each
defaulted to 0 when missing (`jq -r '.field // 0'`). -/
structure NodeStats where
  pool_hashrate : Int
  connected_miners : Int
  round_hashes : Int
  pool_blocks_found : Int
  last_template_fetched : Int
  last_block_found : Int
  network_hashrate : Int
  network_difficulty : Int
  network_height : Int
deriving Repr, DecidableEq

/-- One `{"url":...,"hashrate":...,"miners":...}` entry of `node_stats`. -/
structure NodeInfo where
  url : String
  hashrate : Int
  miners : Int
deriving Repr, DecidableEq

/-- The shell variables mutated by the first loop of
`collect_aggregated_stats` (lines 42-102 of pool-data-collector.sh). -/
structure Pass1State where
  total_pool_hashrate : Int
  total_connected_miners : Int
  total_round_hashes : Int
  total_pool_blocks : Int
  max_last_template : Int
  max_last_block : Int
  network_hashrate : Int
  network_difficulty : Int
  network_height : Int
  active_nodes : Nat
  node_stats : List NodeInfo
  upstream_node : Option String
  downstream_nodes : List String
deriving Repr, DecidableEq

/-- Initial values of the first loop's variables (all zero / empty). -/
def pass1Init : Pass1State :=
  { total_pool_hashrate := 0
    total_connected_miners := 0
    total_round_hashes := 0
    total_pool_blocks := 0
    max_last_template := 0
    max_last_block := 0
    network_hashrate := 0
    network_difficulty := 0
    network_height := 0
    active_nodes := 0
    node_stats := []
    upstream_node := none
    downstream_nodes := [] }

/-- One iteration of the first loop: a failed fetch leaves every variable
unchanged (only a warning is logged); a successful fetch increments
`active_nodes`, overwrites the network fields, takes the four totals verbatim
when the node is the upstream (otherwise records it as a downstream), tracks
the two maxima, and appends the node's info entry. -/
def pass1Step (fetch : String → Option NodeStats) (s : Pass1State) (node : String) :
    Pass1State :=
  match fetch node with
  | none => s
  | some st =>
    { total_pool_hashrate :=
        if isUpstream node then st.pool_hashrate else s.total_pool_hashrate
      total_connected_miners :=
        if isUpstream node then st.connected_miners else s.total_connected_miners
      total_round_hashes :=
        if isUpstream node then st.round_hashes else s.total_round_hashes
      total_pool_blocks :=
        if isUpstream node then st.pool_blocks_found else s.total_pool_blocks
      max_last_template :=
        if st.last_template_fetched > s.max_last_template
        then st.last_template_fetched else s.max_last_template
      max_last_block :=
        if st.last_block_found > s.max_last_block
        then st.last_block_found else s.max_last_block
      network_hashrate := st.network_hashrate
      network_difficulty := st.network_difficulty
      network_height := st.network_height
      active_nodes := s.active_nodes + 1
      node_stats := s.node_stats ++ [⟨node, st.pool_hashrate, st.connected_miners⟩]
      upstream_node := if isUpstream node then some node else s.upstream_node
      downstream_nodes :=
        if isUpstream node then s.downstream_nodes else s.downstream_nodes ++ [node] }

/-- The first loop run from an arbitrary starting state. -/
def pass1Go (fetch : String → Option NodeStats) (l : List String) (s : Pass1State) :
    Pass1State :=
  l.foldl (pass1Step fetch) s

/-- The first loop of `collect_aggregated_stats` over the configured nodes. -/
def pass1 (fetch : String → Option NodeStats) (nodes : List String) : Pass1State :=
  pass1Go fetch nodes pass1Init

/-- The four aggregate totals. -/
structure Totals where
  pool_hashrate : Int
  connected_miners : Int
  round_hashes : Int
  pool_blocks : Int
deriving Repr, DecidableEq

/-- One iteration of the standalone fallback loop (lines 112-125): responding
nodes contribute their four fields to running sums, failed nodes contribute
nothing. -/
def standaloneStep (fetch : String → Option NodeStats) (acc : Totals) (node : String) :
    Totals :=
  match fetch node with
  | none => acc
  | some st =>
    { pool_hashrate := acc.pool_hashrate + st.pool_hashrate
      connected_miners := acc.connected_miners + st.connected_miners
      round_hashes := acc.round_hashes + st.round_hashes
      pool_blocks := acc.pool_blocks + st.pool_blocks_found }

/-- The standalone fallback loop run from an arbitrary accumulator. -/
def standaloneGo (fetch : String → Option NodeStats) (l : List String) (acc : Totals) :
    Totals :=
  l.foldl (standaloneStep fetch) acc

/-- The standalone fallback: totals reset to zero, then a second, independent
pass over all configured nodes sums the four fields of every responder. -/
def standaloneTotals (fetch : String → Option NodeStats) (nodes : List String) : Totals :=
  standaloneGo fetch nodes ⟨0, 0, 0, 0⟩

/-- The totals the cycle publishes: verbatim from the first pass when an
upstream node was detected (`upstream_node` non-empty), otherwise recomputed
by the second, independent summing pass (lines 104-126). -/
def cycleTotals (fetch : String → Option NodeStats) (nodes : List String) : Totals :=
  match (pass1 fetch nodes).upstream_node with
  | none => standaloneTotals fetch nodes
  | some _ =>
    { pool_hashrate := (pass1 fetch nodes).total_pool_hashrate
      connected_miners := (pass1 fetch nodes).total_connected_miners
      round_hashes := (pass1 fetch nodes).total_round_hashes
      pool_blocks := (pass1 fetch nodes).total_pool_blocks }

/-- The aggregated JSON object written to `pool:latest_stats` (lines 154-171),
as a record. -/
structure Snapshot where
  pool_hashrate : Int
  network_hashrate : Int
  network_difficulty : Int
  network_height : Int
  connected_miners : Int
  pool_blocks_found : Int
  round_hashes : Int
  last_template_fetched : Int
  last_block_found : Int
  active_nodes : Nat
  total_nodes : Nat
  timestamp : Int
  nodes_info : List NodeInfo
deriving Repr, DecidableEq

/-- The snapshot a cycle builds from the collected state. -/
def aggregate (fetch : String → Option NodeStats) (nodes : List String) (ts : Int) :
    Snapshot :=
  { pool_hashrate := (cycleTotals fetch nodes).pool_hashrate
    network_hashrate := (pass1 fetch nodes).network_hashrate
    network_difficulty := (pass1 fetch nodes).network_difficulty
    network_height := (pass1 fetch nodes).network_height
    connected_miners := (cycleTotals fetch nodes).connected_miners
    pool_blocks_found := (cycleTotals fetch nodes).pool_blocks
    round_hashes := (cycleTotals fetch nodes).round_hashes
    last_template_fetched := (pass1 fetch nodes).max_last_template
    last_block_found := (pass1 fetch nodes).max_last_block
    active_nodes := (pass1 fetch nodes).active_nodes
    total_nodes := nodes.length
    timestamp := ts
    nodes_info := (pass1 fetch nodes).node_stats }

/-- A JSON value appearing in the serialized snapshot. -/
inductive JsonVal where
  | int (n : Int)
  | nat (n : Nat)
  | arr (xs : List NodeInfo)
deriving Repr, DecidableEq

/-- The field list of the aggregated JSON heredoc (lines 155-169), in source
order: field name paired with its value. -/
def snapshotJson (snap : Snapshot) : List (String × JsonVal) :=
  [("pool_hashrate", .int snap.pool_hashrate),
   ("network_hashrate", .int snap.network_hashrate),
   ("network_difficulty", .int snap.network_difficulty),
   ("network_height", .int snap.network_height),
   ("connected_miners", .int snap.connected_miners),
   ("pool_blocks_found", .int snap.pool_blocks_found),
   ("round_hashes", .int snap.round_hashes),
   ("last_template_fetched", .int snap.last_template_fetched),
   ("last_block_found", .int snap.last_block_found),
   ("active_nodes", .nat snap.active_nodes),
   ("total_nodes", .nat snap.total_nodes),
   ("timestamp", .int snap.timestamp),
   ("nodes_info", .arr snap.nodes_info)]

/-- The field names of the aggregated JSON heredoc, in source order. -/
def SNAPSHOT_FIELD_NAMES : List String :=
  ["pool_hashrate", "network_hashrate", "network_difficulty", "network_height",
   "connected_miners", "pool_blocks_found", "round_hashes", "last_template_fetched",
   "last_block_found", "active_nodes", "total_nodes", "timestamp", "nodes_info"]

/-- Running `bc` with `scale=2` evaluating `(round_hashes * 100) / network_difficulty`:
the exact quotient truncated toward zero at two decimal places, returned in
hundredths. -/
def effortHundredths (round_hashes network_difficulty : Int) : Int :=
  Int.tdiv (round_hashes * 100 * 100) network_difficulty

/-- The effort percentage as the rational number `bc` prints: the hundredths
over 100. -/
def effortValue (round_hashes network_difficulty : Int) : Rat :=
  Rat.divInt (effortHundredths round_hashes network_difficulty) 100

/-- One Redis write issued by a cycle: either a `store_data` time-series
append of a value under a metric key, or the `SET ... EX` of the snapshot. -/
inductive StoreOp where
  | tsAppend (key : String) (value : Rat)
  | setSnapshot (snap : Snapshot) (expirySecs : Int)
deriving Repr, DecidableEq

/-- The store writes of a successful cycle, in source order (lines 139-174):
seven unconditional `store_data` calls, the conditional effort append guarded
by `[ "$network_difficulty" -gt 0 ] && [ "$total_round_hashes" -gt 0 ]`, and
the final snapshot `SET "pool:latest_stats" ... EX 300`. -/
def storeOps (fetch : String → Option NodeStats) (nodes : List String) (ts : Int) :
    List StoreOp :=
  [StoreOp.tsAppend "pool:hashrate" ((cycleTotals fetch nodes).pool_hashrate : Rat),
   StoreOp.tsAppend "network:hashrate" ((pass1 fetch nodes).network_hashrate : Rat),
   StoreOp.tsAppend "network:difficulty" ((pass1 fetch nodes).network_difficulty : Rat),
   StoreOp.tsAppend "network:height" ((pass1 fetch nodes).network_height : Rat),
   StoreOp.tsAppend "pool:miners" ((cycleTotals fetch nodes).connected_miners : Rat),
   StoreOp.tsAppend "pool:blocks" ((cycleTotals fetch nodes).pool_blocks : Rat),
   StoreOp.tsAppend "pool:round_hashes" ((cycleTotals fetch nodes).round_hashes : Rat)] ++
  (if 0 < (pass1 fetch nodes).network_difficulty ∧ 0 < (cycleTotals fetch nodes).round_hashes
   then [StoreOp.tsAppend "pool:effort"
          (effortValue (cycleTotals fetch nodes).round_hashes
            (pass1 fetch nodes).network_difficulty)]
   else []) ++
  [StoreOp.setSnapshot (aggregate fetch nodes ts) SNAPSHOT_EXPIRY]

/-- The body of `collect_aggregated_stats`: after the two collection passes, `return 1`
when no node responded -- before any store write -- else issue all writes. -/
def collect_aggregated_stats (fetch : String → Option NodeStats) (nodes : List String)
    (ts : Int) : Except Unit (List StoreOp) :=
  if (pass1 fetch nodes).active_nodes = 0 then Except.error ()
  else Except.ok (storeOps fetch nodes ts)

/-- The required external tools checked by `main` (line 188). -/
def REQUIRED_TOOLS : List String := ["jq", "redis-cli", "bc", "curl"]

/-- The environment an invocation of the script runs in: which external tools
`command -v` finds, whether `redis-cli ping` succeeds, and the per-cycle node
responses. -/
structure ShellEnv where
  toolAvailable : String → Bool
  redisUp : Bool
  fetch : String → Option NodeStats

instance {ε α : Type} [DecidableEq ε] [DecidableEq α] : DecidableEq (Except ε α) :=
  fun a b =>
    match a, b with
    | Except.error x, Except.error y =>
      if h : x = y then isTrue (by rw [h]) else isFalse (fun hc => by cases hc; exact h rfl)
    | Except.error _, Except.ok _ => isFalse (fun hc => by cases hc)
    | Except.ok _, Except.error _ => isFalse (fun hc => by cases hc)
    | Except.ok x, Except.ok y =>
      if h : x = y then isTrue (by rw [h]) else isFalse (fun hc => by cases hc; exact h rfl)

/-- Outcome of one invocation: an early `exit` with the given status, or the
collection was run and produced the given result. -/
inductive RunOutcome where
  | exited (code : Nat)
  | ranCollect (result : Except Unit (List StoreOp))
deriving Repr, DecidableEq

/-- The `main` function (lines 184-205): `exit 1` if any required tool is missing, `exit 1`
if the Redis ping fails, otherwise run `collect_aggregated_stats`. -/
def mainRun (env : ShellEnv) (nodes : List String) (ts : Int) : RunOutcome :=
  if REQUIRED_TOOLS.all env.toolAvailable then
    if env.redisUp then RunOutcome.ranCollect (collect_aggregated_stats env.fetch nodes ts)
    else RunOutcome.exited 1
  else RunOutcome.exited 1

/-- The argument dispatch (lines 208-218): `"pool-only"` calls
`collect_aggregated_stats` directly, with no tool or store check;
`"miners-only"` invokes the removed `collect_miner_stats`, which no longer
exists, so the shell fails with command-not-found (status 127); anything else
runs `main`. -/
def runScript (arg : Option String) (env : ShellEnv) (nodes : List String) (ts : Int) :
    RunOutcome :=
  match arg with
  | some "pool-only" => RunOutcome.ranCollect (collect_aggregated_stats env.fetch nodes ts)
  | some "miners-only" => RunOutcome.exited 127
  | _ => mainRun env nodes ts

/-- One member of a Redis sorted set under a metric key: the score it was
added with and the `"<timestamp>:<value>"` member string, kept as its two
components. -/
structure ZPoint where
  score : Int
  memberTs : Int
  memberVal : Rat
deriving Repr, DecidableEq

/-- A metric key's store state: its members and its absolute expiry time. -/
structure MetricState where
  points : List ZPoint
  expiresAt : Int
deriving Repr, DecidableEq

/-- Redis `ZADD key score member`: an existing member has its score updated,
a new member is inserted. -/
def zadd (score ts : Int) (v : Rat) (pts : List ZPoint) : List ZPoint :=
  if pts.any (fun p => decide (p.memberTs = ts ∧ p.memberVal = v)) then
    pts.map (fun p => if p.memberTs = ts ∧ p.memberVal = v then
      { p with score := score } else p)
  else pts ++ [⟨score, ts, v⟩]

/-- Redis `ZREMRANGEBYSCORE key -inf cutoff`: removes every member whose
score is at most `cutoff` (the range is inclusive). -/
def zremrangebyscoreLe (cutoff : Int) (pts : List ZPoint) : List ZPoint :=
  pts.filter (fun p => decide (cutoff < p.score))

/-- The `store_data` function (lines 20-36): `ZADD` the `"$TIMESTAMP:$value"` point with
score `$TIMESTAMP`, `EXPIRE` the whole key to the retention window `TTL`,
then `ZREMRANGEBYSCORE key -inf $((TIMESTAMP - TTL))`. -/
def store_data (now : Int) (v : Rat) (s : MetricState) : MetricState :=
  let s1 : MetricState := { s with points := zadd now now v s.points }
  let s2 : MetricState := { s1 with expiresAt := now + TTL }
  { s2 with points := zremrangebyscoreLe (now - TTL) s2.points }

/-- A block template as fetched from the daemon, mirroring the non-version
fields of `shared_template_t` in shared_template.h. -/
structure BlockTemplate where
  height : Nat
  difficulty : Nat
  seed_hash : String
  next_seed_hash : String
  prev_hash : String
  hashing_blob : List Nat
  block_blob : List Nat
  reserved_offset : Nat
  tx_count : Nat
  timestamp : Int
deriving Repr, DecidableEq

/-- The shared-memory template cache `shared_template_t` (shared_template.h
lines 13-28), without the mutex: `template_version` plus the template
fields. -/
structure SharedTemplate where
  template_version : Nat
  height : Nat
  difficulty : Nat
  seed_hash : String
  next_seed_hash : String
  prev_hash : String
  hashing_blob : List Nat
  block_blob : List Nat
  reserved_offset : Nat
  tx_count : Nat
  timestamp : Int
deriving Repr, DecidableEq

/-- Modelled from the spec: the implementation of `shared_template_update` is
not in the repository (src/ holds only its declaration and the
`shared_template_t` layout in shared_template.h, whose comment on
`template_version` reads "Incremented on each update").  Following spec
section 4.1 -- "update(template): under exclusive lock, overwrites all fields
from template, incrementing version" -- a successful update overwrites every
template field wholesale and increments the version counter; the lock is
elided because the update is serialized (single writer), and the version is
the spec's "monotonic unsigned counter". -/
def shared_template_update (t : BlockTemplate) (s : SharedTemplate) : SharedTemplate :=
  { template_version := s.template_version + 1
    height := t.height
    difficulty := t.difficulty
    seed_hash := t.seed_hash
    next_seed_hash := t.next_seed_hash
    prev_hash := t.prev_hash
    hashing_blob := t.hashing_blob
    block_blob := t.block_blob
    reserved_offset := t.reserved_offset
    tx_count := t.tx_count
    timestamp := t.timestamp }

/-- A sequence of successful publishes applied in order. -/
def applyUpdates (s : SharedTemplate) (ts : List BlockTemplate) : SharedTemplate :=
  ts.foldl (fun s t => shared_template_update t s) s

/-- Modelled from the spec: the store's key expiry semantics (the store is an
external collaborator; spec sections 3 and 4.5: the snapshot "expires
automatically if no cycle completes in time" and "remains until its expiry
elapses, then reads as absent").  A key written at `writeTime` with relative
expiry `expiry` is readable at `queryTime` exactly when the expiry has not
yet elapsed. -/
def snapshotReadable (writeTime expiry queryTime : Int) : Bool :=
  decide (queryTime < writeTime + expiry)

/-- Upstream response used in concrete cycles: spec scenario A's values with
positive network difficulty. -/
def statsUpA : NodeStats :=
  { pool_hashrate := 5000
    connected_miners := 12
    round_hashes := 200000
    pool_blocks_found := 3
    last_template_fetched := 111
    last_block_found := 222
    network_hashrate := 777
    network_difficulty := 1000000
    network_height := 4242 }

/-- Downstream response used in concrete cycles: spec scenario A's values. -/
def statsDownA : NodeStats :=
  { pool_hashrate := 1200
    connected_miners := 4
    round_hashes := 100
    pool_blocks_found := 1
    last_template_fetched := 110
    last_block_found := 200
    network_hashrate := 777
    network_difficulty := 1000000
    network_height := 4242 }

/-- A concrete cycle in which both configured nodes respond. -/
def fetchA (node : String) : Option NodeStats :=
  if node = "core.supportsal.com:4243" then some statsUpA
  else if node = "node1.supportsal.com:4243" then some statsDownA
  else none

/-- A concrete cycle in which only the downstream responds, with zero network
difficulty (so `bc` is never invoked). -/
def fetchD (node : String) : Option NodeStats :=
  if node = "node1.supportsal.com:4243" then
    some { statsDownA with network_difficulty := 0 }
  else none

/-- A concrete cycle in which no node responds. -/
def fetchNone (_node : String) : Option NodeStats := none

/-- A concrete environment missing the required tool `bc` (Redis reachable,
nodes responding as in `fetchD`). -/
def envMissingBc : ShellEnv :=
  { toolAvailable := fun t => decide (t ≠ "bc")
    redisUp := true
    fetch := fetchD }

/-- The `nodes_info` entry a responding node contributes (line 98); `none`
for an unreachable node. -/
def nodeInfoOf (fetch : String → Option NodeStats) (n : String) : Option NodeInfo :=
  (fetch n).map (fun st => NodeInfo.mk n st.pool_hashrate st.connected_miners)

/-- A concrete initial cache state (all zero / empty). -/
def sharedT0 : SharedTemplate :=
  { template_version := 0, height := 0, difficulty := 0, seed_hash := "",
    next_seed_hash := "", prev_hash := "", hashing_blob := [], block_blob := [],
    reserved_offset := 0, tx_count := 0, timestamp := 0 }

/-- A concrete block template. -/
def tmplA : BlockTemplate :=
  { height := 700, difficulty := 1000000, seed_hash := "aa", next_seed_hash := "bb",
    prev_hash := "cc", hashing_blob := [1, 2, 3], block_blob := [4, 5],
    reserved_offset := 130, tx_count := 7, timestamp := 1700000000 }

/- Helper lemmas about the collection passes. -/

theorem pass1Go_cons (fetch : String → Option NodeStats) (n : String) (t : List String)
    (s : Pass1State) : pass1Go fetch (n :: t) s = pass1Go fetch t (pass1Step fetch s n) :=
  rfl

theorem pass1Step_nonupstream (fetch : String → Option NodeStats) (s : Pass1State)
    (n : String) (h : isUpstream n = false) :
    (pass1Step fetch s n).upstream_node = s.upstream_node ∧
    (pass1Step fetch s n).total_pool_hashrate = s.total_pool_hashrate ∧
    (pass1Step fetch s n).total_connected_miners = s.total_connected_miners ∧
    (pass1Step fetch s n).total_round_hashes = s.total_round_hashes ∧
    (pass1Step fetch s n).total_pool_blocks = s.total_pool_blocks := by
  cases hf : fetch n <;> simp [pass1Step, hf, h]

theorem pass1Go_upstream_totals (fetch : String → Option NodeStats) (u : String)
    (st : NodeStats) (hup : isUpstream u = true) (hresp : fetch u = some st) :
    ∀ (l : List String) (s : Pass1State),
      (∀ n ∈ l, isUpstream n = true → n = u) →
      (u ∈ l ∨ (s.upstream_node = some u ∧
        s.total_pool_hashrate = st.pool_hashrate ∧
        s.total_connected_miners = st.connected_miners ∧
        s.total_round_hashes = st.round_hashes ∧
        s.total_pool_blocks = st.pool_blocks_found)) →
      (pass1Go fetch l s).upstream_node = some u ∧
      (pass1Go fetch l s).total_pool_hashrate = st.pool_hashrate ∧
      (pass1Go fetch l s).total_connected_miners = st.connected_miners ∧
      (pass1Go fetch l s).total_round_hashes = st.round_hashes ∧
      (pass1Go fetch l s).total_pool_blocks = st.pool_blocks_found := by
  intro l
  induction l with
  | nil =>
    intro s _ hdis
    rcases hdis with h | h
    · exact absurd h (List.not_mem_nil u)
    · simpa [pass1Go] using h
  | cons n t ih =>
    intro s hall hdis
    rw [pass1Go_cons]
    by_cases hn : isUpstream n = true
    · have hnu : n = u := hall n (List.mem_cons_self n t) hn
      subst hnu
      refine ih (pass1Step fetch s n) (fun m hm hmup => hall m (List.mem_cons_of_mem _ hm) hmup) (Or.inr ?_)
      simp [pass1Step, hresp, hn]
    · have hn' : isUpstream n = false := by simpa using hn
      have hpres := pass1Step_nonupstream fetch s n hn'
      refine ih (pass1Step fetch s n) (fun m hm hmup => hall m (List.mem_cons_of_mem _ hm) hmup) ?_
      rcases hdis with hmem | hstate
      · rcases List.mem_cons.mp hmem with hemn | hmem'
        · exact absurd hup (by rw [hemn]; simp [hn'])
        · exact Or.inl hmem'
      · exact Or.inr ⟨hpres.1.trans hstate.1, hpres.2.1.trans hstate.2.1,
          hpres.2.2.1.trans hstate.2.2.1, hpres.2.2.2.1.trans hstate.2.2.2.1,
          hpres.2.2.2.2.trans hstate.2.2.2.2⟩

theorem pass1Go_no_upstream (fetch : String → Option NodeStats) :
    ∀ (l : List String) (s : Pass1State),
      (∀ n ∈ l, isUpstream n = true → fetch n = none) →
      (pass1Go fetch l s).upstream_node = s.upstream_node := by
  intro l
  induction l with
  | nil => intro s _; rfl
  | cons n t ih =>
    intro s hall
    rw [pass1Go_cons]
    have hrest : ∀ m ∈ t, isUpstream m = true → fetch m = none :=
      fun m hm hmup => hall m (List.mem_cons_of_mem _ hm) hmup
    rw [ih (pass1Step fetch s n) hrest]
    cases hf : fetch n with
    | none => simp [pass1Step, hf]
    | some st =>
      have hn : isUpstream n = false := by
        by_contra hc
        have := hall n (List.mem_cons_self n t) (by simpa using hc)
        rw [this] at hf
        cases hf
      simp [pass1Step, hf, hn]

theorem pass1Go_active_nodes (fetch : String → Option NodeStats) :
    ∀ (l : List String) (s : Pass1State),
      (pass1Go fetch l s).active_nodes = s.active_nodes + (l.filterMap fetch).length := by
  intro l
  induction l with
  | nil => intro s; simp [pass1Go]
  | cons n t ih =>
    intro s
    rw [pass1Go_cons, ih]
    cases hf : fetch n with
    | none => simp [pass1Step, hf, List.filterMap_cons, hf]
    | some st =>
      simp [pass1Step, hf, List.filterMap_cons]
      omega

theorem pass1Go_node_stats (fetch : String → Option NodeStats) :
    ∀ (l : List String) (s : Pass1State),
      (pass1Go fetch l s).node_stats = s.node_stats ++ l.filterMap (nodeInfoOf fetch) := by
  intro l
  induction l with
  | nil => intro s; simp [pass1Go]
  | cons n t ih =>
    intro s
    rw [pass1Go_cons, ih]
    cases hf : fetch n with
    | none => simp [pass1Step, hf, List.filterMap_cons, nodeInfoOf]
    | some st => simp [pass1Step, hf, List.filterMap_cons, nodeInfoOf]

theorem length_filterMap_nodeInfo (fetch : String → Option NodeStats) :
    ∀ l : List String,
      (l.filterMap (nodeInfoOf fetch)).length = (l.filterMap fetch).length := by
  intro l
  induction l with
  | nil => rfl
  | cons n t ih => cases hf : fetch n <;> simp [List.filterMap_cons, nodeInfoOf, hf, ih]

theorem standaloneGo_sum (fetch : String → Option NodeStats) :
    ∀ (l : List String) (acc : Totals),
      standaloneGo fetch l acc =
        ⟨acc.pool_hashrate + ((l.filterMap fetch).map NodeStats.pool_hashrate).sum,
         acc.connected_miners + ((l.filterMap fetch).map NodeStats.connected_miners).sum,
         acc.round_hashes + ((l.filterMap fetch).map NodeStats.round_hashes).sum,
         acc.pool_blocks + ((l.filterMap fetch).map NodeStats.pool_blocks_found).sum⟩ := by
  intro l
  induction l with
  | nil => intro acc; simp [standaloneGo]
  | cons n t ih =>
    intro acc
    have hcons : standaloneGo fetch (n :: t) acc =
        standaloneGo fetch t (standaloneStep fetch acc n) := rfl
    rw [hcons, ih]
    cases hf : fetch n with
    | none => simp [standaloneStep, hf, List.filterMap_cons]
    | some st =>
      simp [standaloneStep, hf, List.filterMap_cons]
      refine ⟨by ring, by ring, by ring, by ring⟩

theorem filterMap_eq_nil_of_all_none {α β : Type} (f : α → Option β) :
    ∀ l : List α, (∀ a ∈ l, f a = none) → l.filterMap f = [] := by
  intro l
  induction l with
  | nil => intro _; rfl
  | cons a t ih =>
    intro h
    rw [List.filterMap_cons, h a (List.mem_cons_self a t)]
    exact ih (fun b hb => h b (List.mem_cons_of_mem _ hb))

theorem applyUpdates_version :
    ∀ (ts : List BlockTemplate) (s : SharedTemplate),
      (applyUpdates s ts).template_version = s.template_version + ts.length := by
  intro ts
  induction ts with
  | nil => intro s; simp [applyUpdates]
  | cons t rest ih =>
    intro s
    have hcons : applyUpdates s (t :: rest) =
        applyUpdates (shared_template_update t s) rest := rfl
    rw [hcons, ih]
    simp [shared_template_update]
    omega

/- The claim theorems. -/

/-- Claim C1: for every aggregation cycle in which the upstream node responds,
the aggregate's pool_hashrate, connected_miners, round_hashes and
pool_blocks_found equal exactly the values reported by the upstream,
regardless of what any downstream node reports -- downstream values are never
summed into the totals -- and the cycle succeeds and issues its writes. -/
theorem upstream_totals_verbatim (fetch : String → Option NodeStats)
    (nodes : List String) (ts : Int) (u : String) (st : NodeStats)
    (hmem : u ∈ nodes) (hup : isUpstream u = true)
    (huniq : ∀ n ∈ nodes, isUpstream n = true → n = u)
    (hresp : fetch u = some st) :
    collect_aggregated_stats fetch nodes ts = Except.ok (storeOps fetch nodes ts) ∧
    (aggregate fetch nodes ts).pool_hashrate = st.pool_hashrate ∧
    (aggregate fetch nodes ts).connected_miners = st.connected_miners ∧
    (aggregate fetch nodes ts).round_hashes = st.round_hashes ∧
    (aggregate fetch nodes ts).pool_blocks_found = st.pool_blocks_found := by
  have hpass :
      (pass1 fetch nodes).upstream_node = some u ∧
      (pass1 fetch nodes).total_pool_hashrate = st.pool_hashrate ∧
      (pass1 fetch nodes).total_connected_miners = st.connected_miners ∧
      (pass1 fetch nodes).total_round_hashes = st.round_hashes ∧
      (pass1 fetch nodes).total_pool_blocks = st.pool_blocks_found :=
    pass1Go_upstream_totals fetch u st hup hresp nodes pass1Init huniq (Or.inl hmem)
  have hcyc : cycleTotals fetch nodes =
      ⟨st.pool_hashrate, st.connected_miners, st.round_hashes, st.pool_blocks_found⟩ := by
    unfold cycleTotals
    rw [hpass.1]
    simp [hpass.2.1, hpass.2.2.1, hpass.2.2.2.1, hpass.2.2.2.2]
  have hact : (pass1 fetch nodes).active_nodes = 0 + (nodes.filterMap fetch).length :=
    pass1Go_active_nodes fetch nodes pass1Init
  have hne : (pass1 fetch nodes).active_nodes ≠ 0 := by
    rw [hact]
    have hmemf : st ∈ nodes.filterMap fetch := List.mem_filterMap.mpr ⟨u, hmem, hresp⟩
    have hlen := List.length_pos.mpr (List.ne_nil_of_mem hmemf)
    omega
  refine ⟨?_, ?_, ?_, ?_, ?_⟩
  · unfold collect_aggregated_stats
    rw [if_neg hne]
  all_goals simp [aggregate, hcyc]

/-- Witness for C1: a cycle (spec scenario A) where the upstream reports
hashrate 5000 / 12 miners and a downstream reports 1200 / 4; the aggregate
takes the upstream's values verbatim. -/
theorem upstream_totals_verbatim_witness :
    ("core.supportsal.com:4243" ∈ POOL_NODES) ∧
    isUpstream "core.supportsal.com:4243" = true ∧
    fetchA "core.supportsal.com:4243" = some statsUpA ∧
    (aggregate fetchA POOL_NODES 1000).pool_hashrate = 5000 ∧
    (aggregate fetchA POOL_NODES 1000).connected_miners = 12 :=
  ⟨by decide, by decide, by decide,
    (upstream_totals_verbatim fetchA POOL_NODES 1000 "core.supportsal.com:4243" statsUpA
      (by decide) (by decide) (by decide) (by decide)).2.1,
    (upstream_totals_verbatim fetchA POOL_NODES 1000 "core.supportsal.com:4243" statsUpA
      (by decide) (by decide) (by decide) (by decide)).2.2.1⟩

/-- Claim C2: for every aggregation cycle in which no upstream node responds,
the aggregate's pool_hashrate, connected_miners, round_hashes and
pool_blocks_found equal the arithmetic sums of the corresponding fields over
all responding nodes (computed by the second, independent summing pass that
`cycleTotals` takes when `upstream_node` is empty). -/
theorem standalone_totals_are_sums (fetch : String → Option NodeStats)
    (nodes : List String) (ts : Int)
    (hno : ∀ n ∈ nodes, isUpstream n = true → fetch n = none) :
    (aggregate fetch nodes ts).pool_hashrate =
      ((nodes.filterMap fetch).map NodeStats.pool_hashrate).sum ∧
    (aggregate fetch nodes ts).connected_miners =
      ((nodes.filterMap fetch).map NodeStats.connected_miners).sum ∧
    (aggregate fetch nodes ts).round_hashes =
      ((nodes.filterMap fetch).map NodeStats.round_hashes).sum ∧
    (aggregate fetch nodes ts).pool_blocks_found =
      ((nodes.filterMap fetch).map NodeStats.pool_blocks_found).sum := by
  have hup : (pass1 fetch nodes).upstream_node = none :=
    pass1Go_no_upstream fetch nodes pass1Init hno
  have hst : standaloneTotals fetch nodes =
      ⟨((nodes.filterMap fetch).map NodeStats.pool_hashrate).sum,
       ((nodes.filterMap fetch).map NodeStats.connected_miners).sum,
       ((nodes.filterMap fetch).map NodeStats.round_hashes).sum,
       ((nodes.filterMap fetch).map NodeStats.pool_blocks_found).sum⟩ := by
    have h := standaloneGo_sum fetch nodes ⟨0, 0, 0, 0⟩
    simpa [standaloneTotals] using h
  have hcyc : cycleTotals fetch nodes = standaloneTotals fetch nodes := by
    unfold cycleTotals
    rw [hup]
  refine ⟨?_, ?_, ?_, ?_⟩ <;> simp [aggregate, hcyc, hst]

/-- Witness for C2: a cycle where the upstream is down and only the
downstream responds; the aggregate's hashrate is the sum over responders. -/
theorem standalone_totals_are_sums_witness :
    (∀ n ∈ POOL_NODES, isUpstream n = true → fetchD n = none) ∧
    (aggregate fetchD POOL_NODES 1000).pool_hashrate =
      ((POOL_NODES.filterMap fetchD).map NodeStats.pool_hashrate).sum :=
  ⟨by decide, (standalone_totals_are_sums fetchD POOL_NODES 1000 (by decide)).1⟩

/-- Claim C3: for every aggregation cycle in which zero configured nodes
respond, the cycle aborts with an error (the script's `return 1`) and
produces no store write at all -- no snapshot write and no time-series
write. -/
theorem zero_responders_abort (fetch : String → Option NodeStats)
    (nodes : List String) (ts : Int) (h : ∀ n ∈ nodes, fetch n = none) :
    collect_aggregated_stats fetch nodes ts = Except.error () := by
  have hact : (pass1 fetch nodes).active_nodes = 0 + (nodes.filterMap fetch).length :=
    pass1Go_active_nodes fetch nodes pass1Init
  have hnil : nodes.filterMap fetch = [] := filterMap_eq_nil_of_all_none fetch nodes h
  have hzero : (pass1 fetch nodes).active_nodes = 0 := by
    rw [hact, hnil]
    rfl
  unfold collect_aggregated_stats
  rw [if_pos hzero]

/-- Witness for C3: the all-nodes-down cycle aborts with the error result. -/
theorem zero_responders_abort_witness :
    (∀ n ∈ POOL_NODES, fetchNone n = none) ∧
    collect_aggregated_stats fetchNone POOL_NODES 1000 = Except.error () :=
  ⟨by decide, zero_responders_abort fetchNone POOL_NODES 1000 (by decide)⟩

/-- Claim C10: for every cycle, the snapshot's nodes_info list holds exactly
one {url, hashrate, miners} entry per node that responded during the first
collection pass, in configuration order -- the upstream included when it
responded -- and its length equals the snapshot's active_nodes count. -/
theorem nodes_info_one_entry_per_responder (fetch : String → Option NodeStats)
    (nodes : List String) (ts : Int) :
    (aggregate fetch nodes ts).nodes_info = nodes.filterMap (nodeInfoOf fetch) ∧
    (aggregate fetch nodes ts).nodes_info.length = (aggregate fetch nodes ts).active_nodes := by
  have hinfo : (pass1 fetch nodes).node_stats = [] ++ nodes.filterMap (nodeInfoOf fetch) :=
    pass1Go_node_stats fetch nodes pass1Init
  have hact : (pass1 fetch nodes).active_nodes = 0 + (nodes.filterMap fetch).length :=
    pass1Go_active_nodes fetch nodes pass1Init
  constructor
  · simpa [aggregate] using hinfo
  · simp only [aggregate]
    rw [hinfo, hact]
    simp [length_filterMap_nodeInfo]

/-- Witness for C10: in the concrete two-responder cycle the info list has
both entries, upstream first, and its length matches active_nodes. -/
theorem nodes_info_one_entry_per_responder_witness :
    (aggregate fetchA POOL_NODES 1000).nodes_info =
      POOL_NODES.filterMap (nodeInfoOf fetchA) ∧
    (aggregate fetchA POOL_NODES 1000).nodes_info.length =
      (aggregate fetchA POOL_NODES 1000).active_nodes :=
  ⟨(nodes_info_one_entry_per_responder fetchA POOL_NODES 1000).1,
   (nodes_info_one_entry_per_responder fetchA POOL_NODES 1000).2⟩

/-- Claim C4 (the update operation is modelled from the spec, see
`shared_template_update`): every successful template-cache update overwrites
all template fields wholesale and increments template_version, so across any
sequence of successful publishes the version is strictly increasing. -/
theorem shared_template_version_strictly_increases
    (s : SharedTemplate) (t : BlockTemplate)
    (ts : List BlockTemplate) (i j : Nat) (hij : i < j) (hj : j ≤ ts.length) :
    (applyUpdates s (ts.take i)).template_version <
      (applyUpdates s (ts.take j)).template_version ∧
    (shared_template_update t s).template_version = s.template_version + 1 ∧
    (shared_template_update t s).height = t.height ∧
    (shared_template_update t s).difficulty = t.difficulty ∧
    (shared_template_update t s).seed_hash = t.seed_hash ∧
    (shared_template_update t s).next_seed_hash = t.next_seed_hash ∧
    (shared_template_update t s).prev_hash = t.prev_hash ∧
    (shared_template_update t s).hashing_blob = t.hashing_blob ∧
    (shared_template_update t s).block_blob = t.block_blob ∧
    (shared_template_update t s).reserved_offset = t.reserved_offset ∧
    (shared_template_update t s).tx_count = t.tx_count ∧
    (shared_template_update t s).timestamp = t.timestamp := by
  refine ⟨?_, rfl, rfl, rfl, rfl, rfl, rfl, rfl, rfl, rfl, rfl, rfl⟩
  rw [applyUpdates_version, applyUpdates_version, List.length_take, List.length_take]
  have hi : min i ts.length = i := Nat.min_eq_left (Nat.le_of_lt (Nat.lt_of_lt_of_le hij hj))
  have hjm : min j ts.length = j := Nat.min_eq_left hj
  omega

/-- Witness for C4: one publish on the empty cache strictly increases the
version. -/
theorem shared_template_version_strictly_increases_witness :
    ((0 : Nat) < 1 ∧ 1 ≤ [tmplA].length) ∧
    (applyUpdates sharedT0 ([tmplA].take 0)).template_version <
      (applyUpdates sharedT0 ([tmplA].take 1)).template_version :=
  ⟨⟨by decide, by decide⟩,
    (shared_template_version_strictly_increases sharedT0 tmplA [tmplA] 0 1
      (by decide) (by decide)).1⟩

/-- Claim C5: every time-series append adds the (timestamp, value) point,
sets the metric key's absolute expiry to the retention window (259200s), and
prunes old points, so after any append no point with timestamp below
now - window remains under the key. -/
theorem store_data_append_expire_prune (s : MetricState) (now : Int) (v : Rat) :
    (store_data now v s).expiresAt = now + TTL ∧
    TTL = 259200 ∧
    (∃ p ∈ (store_data now v s).points,
      p.score = now ∧ p.memberTs = now ∧ p.memberVal = v) ∧
    (∀ p ∈ (store_data now v s).points, ¬(p.score < now - TTL)) := by
  refine ⟨rfl, rfl, ?_, ?_⟩
  · have hx : (⟨now, now, v⟩ : ZPoint) ∈ zadd now now v s.points := by
      unfold zadd
      by_cases hmem : s.points.any (fun p => decide (p.memberTs = now ∧ p.memberVal = v))
      · rw [if_pos hmem]
        obtain ⟨q, hq, hqp⟩ := List.any_eq_true.mp hmem
        have hqp' : q.memberTs = now ∧ q.memberVal = v := of_decide_eq_true hqp
        have himg : (⟨now, now, v⟩ : ZPoint) =
            (fun p => if p.memberTs = now ∧ p.memberVal = v then
              { p with score := now } else p) q := by
          simp only [if_pos hqp']
          obtain ⟨qs, qts, qv⟩ := q
          simp only at hqp'
          simp [hqp'.1, hqp'.2]
        rw [himg]
        exact List.mem_map_of_mem _ hq
      · rw [if_neg hmem]
        exact List.mem_append_right _ (List.mem_singleton.mpr rfl)
    refine ⟨⟨now, now, v⟩, ?_, rfl, rfl, rfl⟩
    show _ ∈ zremrangebyscoreLe (now - TTL) (zadd now now v s.points)
    unfold zremrangebyscoreLe
    refine List.mem_filter.mpr ⟨hx, ?_⟩
    refine decide_eq_true ?_
    show now - TTL < now
    have hT : TTL = (259200 : Int) := rfl
    omega
  · intro p hp
    have hp' : p ∈ zremrangebyscoreLe (now - TTL) (zadd now now v s.points) := hp
    unfold zremrangebyscoreLe at hp'
    have h2 := (List.mem_filter.mp hp').2
    have h3 : now - TTL < p.score := of_decide_eq_true h2
    omega

/-- Witness for C5: a concrete append refreshes the key's expiry to the full
retention window. -/
theorem store_data_append_expire_prune_witness :
    (store_data 1000000 5 ⟨[], 0⟩).expiresAt = 1000000 + TTL :=
  (store_data_append_expire_prune ⟨[], 0⟩ 1000000 5).1

/-- Claim C6: in every cycle the pool effort is written if and only if the
network difficulty and the total round hashes are both positive; when
written, its value is round_hashes * 100 / network_difficulty truncated to
two decimals, and 50000 round hashes at difficulty 1000000 give 5.00. -/
theorem effort_written_iff_positive (fetch : String → Option NodeStats)
    (nodes : List String) (ts : Int) :
    ((StoreOp.tsAppend "pool:effort"
        (effortValue (cycleTotals fetch nodes).round_hashes
          (pass1 fetch nodes).network_difficulty) ∈ storeOps fetch nodes ts) ↔
      (0 < (pass1 fetch nodes).network_difficulty ∧
       0 < (cycleTotals fetch nodes).round_hashes)) ∧
    (∀ v : Rat, StoreOp.tsAppend "pool:effort" v ∈ storeOps fetch nodes ts →
      v = effortValue (cycleTotals fetch nodes).round_hashes
            (pass1 fetch nodes).network_difficulty) ∧
    effortValue 50000 1000000 = 5 := by
  refine ⟨⟨?_, ?_⟩, ?_, by decide⟩
  · intro hmem
    by_contra hnot
    unfold storeOps at hmem
    rw [if_neg hnot] at hmem
    simp at hmem
  · intro hpos
    unfold storeOps
    rw [if_pos hpos]
    simp
  · intro v hv
    unfold storeOps at hv
    by_cases hc : 0 < (pass1 fetch nodes).network_difficulty ∧
        0 < (cycleTotals fetch nodes).round_hashes
    · rw [if_pos hc] at hv
      simp at hv
      exact hv
    · rw [if_neg hc] at hv
      simp at hv

/-- Witness for C6: in the concrete two-responder cycle the guard holds and
the effort append is among the cycle's writes. -/
theorem effort_written_iff_positive_witness :
    StoreOp.tsAppend "pool:effort"
      (effortValue (cycleTotals fetchA POOL_NODES).round_hashes
        (pass1 fetchA POOL_NODES).network_difficulty) ∈ storeOps fetchA POOL_NODES 1000 :=
  (effort_written_iff_positive fetchA POOL_NODES 1000).1.mpr (by decide)

/-- Counterexample to C7: a successful cycle whose effort guard holds, yet
the published snapshot object has no field whose name contains "effort" --
effort is persisted only as the "pool:effort" time series, never in the
snapshot. -/
theorem snapshot_has_no_effort_field_cx :
    collect_aggregated_stats fetchA POOL_NODES 1000 =
      Except.ok (storeOps fetchA POOL_NODES 1000) ∧
    (0 < (pass1 fetchA POOL_NODES).network_difficulty ∧
     0 < (cycleTotals fetchA POOL_NODES).round_hashes) ∧
    (∀ kv ∈ snapshotJson (aggregate fetchA POOL_NODES 1000),
      containsSub "effort".data kv.1.data = false) := by decide

/-- Amended C7: every aggregated snapshot contains exactly the thirteen
fields pool_hashrate, network_hashrate, network_difficulty, network_height,
connected_miners, pool_blocks_found, round_hashes, last_template_fetched,
last_block_found, active_nodes, total_nodes, timestamp and nodes_info -- and
none of them is a pool-effort field. -/
theorem snapshot_fields_no_effort (fetch : String → Option NodeStats)
    (nodes : List String) (ts : Int) :
    (snapshotJson (aggregate fetch nodes ts)).map Prod.fst = SNAPSHOT_FIELD_NAMES ∧
    ∀ k ∈ SNAPSHOT_FIELD_NAMES, containsSub "effort".data k.data = false :=
  ⟨rfl, by decide⟩

/-- Witness for the amended C7 at a concrete successful cycle. -/
theorem snapshot_fields_no_effort_witness :
    (snapshotJson (aggregate fetchA POOL_NODES 1000)).map Prod.fst = SNAPSHOT_FIELD_NAMES :=
  (snapshot_fields_no_effort fetchA POOL_NODES 1000).1

/-- Counterexample to C8: with the required tool `bc` missing, the explicit
"aggregate only" invocation (`pool-only`) does not exit non-zero before any
node fetch or store write -- it runs the collection and issues its writes. -/
theorem aggregate_only_skips_startup_checks_cx :
    REQUIRED_TOOLS.all envMissingBc.toolAvailable = false ∧
    runScript (some "pool-only") envMissingBc POOL_NODES 1000 =
      RunOutcome.ranCollect (Except.ok (storeOps fetchD POOL_NODES 1000)) ∧
    storeOps fetchD POOL_NODES 1000 ≠ [] := by decide

/-- Amended C8: in the default full-cycle mode the process exits with
non-zero status before any node fetch or store write when a required
external tool (jq, redis-cli, bc, curl) is missing or the store cannot be
reached at startup; the explicit "aggregate only" mode performs no such
startup checks. -/
theorem default_mode_startup_checks (env : ShellEnv) (nodes : List String) (ts : Int)
    (h : REQUIRED_TOOLS.all env.toolAvailable = false ∨ env.redisUp = false) :
    runScript none env nodes ts = RunOutcome.exited 1 := by
  have hred : runScript none env nodes ts = mainRun env nodes ts := rfl
  rw [hred]
  rcases h with h | h <;> simp [mainRun, h]

/-- Witness for the amended C8: the default mode exits 1 in the environment
missing `bc`. -/
theorem default_mode_startup_checks_witness :
    (REQUIRED_TOOLS.all envMissingBc.toolAvailable = false ∨
      envMissingBc.redisUp = false) ∧
    runScript none envMissingBc POOL_NODES 1000 = RunOutcome.exited 1 :=
  ⟨Or.inl (by decide),
    default_mode_startup_checks envMissingBc POOL_NODES 1000 (Or.inl (by decide))⟩

/-- Counterexample to C9: the snapshot expiry the code uses is 300 seconds,
which is not strictly shorter than the aggregation cycle interval -- neither
shorter than the spec's presumed 60-120s cycle bound nor strictly shorter
than 300 itself under the reading that the interval is the 300s default. -/
theorem snapshot_expiry_not_strictly_shorter_cx :
    StoreOp.setSnapshot (aggregate fetchA POOL_NODES 1000) SNAPSHOT_EXPIRY ∈
      storeOps fetchA POOL_NODES 1000 ∧
    SNAPSHOT_EXPIRY = 300 ∧
    ¬(SNAPSHOT_EXPIRY < CYCLE_INTERVAL_PRESUMED_MAX) ∧
    ¬(SNAPSHOT_EXPIRY < SNAPSHOT_EXPIRY) := by decide

/-- Amended C9: every snapshot produced by a successful cycle is written as a
single object with a 300-second expiry -- strictly longer than the presumed
cycle interval, not shorter -- and under the store's expiry semantics the
snapshot remains readable only until the expiry elapses and then reads as
absent. -/
theorem snapshot_written_with_expiry (fetch : String → Option NodeStats)
    (nodes : List String) (ts : Int) :
    StoreOp.setSnapshot (aggregate fetch nodes ts) SNAPSHOT_EXPIRY ∈
      storeOps fetch nodes ts ∧
    (∀ (sn : Snapshot) (e : Int),
      StoreOp.setSnapshot sn e ∈ storeOps fetch nodes ts →
      sn = aggregate fetch nodes ts ∧ e = SNAPSHOT_EXPIRY) ∧
    SNAPSHOT_EXPIRY = 300 ∧
    CYCLE_INTERVAL_PRESUMED_MAX < SNAPSHOT_EXPIRY ∧
    (∀ writeTime queryTime : Int,
      snapshotReadable writeTime SNAPSHOT_EXPIRY queryTime = true ↔
        queryTime < writeTime + SNAPSHOT_EXPIRY) := by
  refine ⟨?_, ?_, rfl, by decide, ?_⟩
  · unfold storeOps
    simp
  · intro sn e hv
    unfold storeOps at hv
    by_cases hc : 0 < (pass1 fetch nodes).network_difficulty ∧
        0 < (cycleTotals fetch nodes).round_hashes
    · rw [if_pos hc] at hv
      simp at hv
      exact hv
    · rw [if_neg hc] at hv
      simp at hv
      exact hv
  · intro wt qt
    simp [snapshotReadable]

/-- Witness for the amended C9 at a concrete successful cycle. -/
theorem snapshot_written_with_expiry_witness :
    StoreOp.setSnapshot (aggregate fetchA POOL_NODES 1000) SNAPSHOT_EXPIRY ∈
      storeOps fetchA POOL_NODES 1000 :=
  (snapshot_written_with_expiry fetchA POOL_NODES 1000).1

end SalviumPool
